import Mathlib

/-!
Verification of `postfix/reinject.py`, the Postfix content-filter
reinjection script: it reads an email from stdin, extracts the recipient
from the first line starting with `to:` (case-insensitively), and relays
the message over a hand-rolled SMTP exchange to 127.0.0.1:10025.

The script is embedded shallowly over `List Char`:
* header extraction (`extractTo`) mirrors
  `line.lower().startswith('to:')`, `line.split(':', 1)[1].strip()`,
  `to_addr.strip('<>')`;
* the network side is a deterministic function `run` from the input
  message and an environment `NetEnv` (connect outcome, the successive
  `recv` results, per-`sendall` success, `close` success) to an exit
  code, the stderr lines, and the trace of network events.

Bytes are identified with their decoded characters (`email.encode()` is
the identity on this representation), and `str.lower` is modelled by
ASCII lowering, which agrees with Python on the ASCII header names the
script matches on.
-/

/-- ASCII lowering of one character, as `Char.toLower`; agrees with
Python `str.lower` on ASCII text. -/
def pyToLower (c : Char) : Char := c.toLower

/-- Lowering of a whole line, modelling `line.lower()`. -/
def pyLower (s : List Char) : List Char := s.map pyToLower

/-- Model of `str.startswith`. -/
def pyStartsWith : List Char → List Char → Bool
  | [], _ => true
  | _ :: _, [] => false
  | p :: ps, c :: cs => (p == c) && pyStartsWith ps cs

/-- Characters stripped by Python `str.strip()` with no argument. -/
def isPyWs (c : Char) : Bool :=
  c == ' ' || c == '\t' || c == '\n' || c == '\r' || c == '\x0b' || c == '\x0c'

/-- Characters stripped by `str.strip('<>')`. -/
def isAngle (c : Char) : Bool := c == '<' || c == '>'

/-- Removal of leading and trailing characters satisfying `p`,
modelling Python `str.strip` with the corresponding character set. -/
def pyStripWith (p : Char → Bool) (s : List Char) : List Char :=
  ((s.dropWhile p).reverse.dropWhile p).reverse

/-- Model of `str.strip()`. -/
def pyStrip (s : List Char) : List Char := pyStripWith isPyWs s

/-- Model of `str.strip('<>')`. -/
def pyStripAngles (s : List Char) : List Char := pyStripWith isAngle s

/-- Model of `email.split('\n')`: like Python, the empty string splits
to one empty line, and every `'\n'` starts a new line. -/
def splitLines : List Char → List (List Char)
  | [] => [[]]
  | c :: cs =>
    if c = '\n' then [] :: splitLines cs
    else (c :: (splitLines cs).headD []) :: (splitLines cs).tail

/-- Model of `line.split(':', 1)[1]`: everything after the first colon
(the script only evaluates this on lines that contain a colon). -/
def afterColon (s : List Char) : List Char :=
  (s.dropWhile (fun c => c ≠ ':')).drop 1

/-- The loop of lines 15-20 of the script: scan the lines in order and,
for the first one whose lowering starts with `key`, return the part
after the first colon; `break` afterwards. -/
def findHeaderLine (key : List Char) : List (List Char) → Option (List Char)
  | [] => none
  | l :: ls =>
    if pyStartsWith key (pyLower l) then some (afterColon l)
    else findHeaderLine key ls

/-- Recipient extraction of lines 14-20:
`line.split(':', 1)[1].strip()` then `.strip('<>')` on the first line
whose lowering starts with `to:`; `none` when no line matches. -/
def extractTo (email : List Char) : Option (List Char) :=
  (findHeaderLine "to:".data (splitLines email)).map
    (fun v => pyStripAngles (pyStrip v))

/-! ## The wire side -/

/-- Network events the script performs, in order: the single connect
attempt of line 29, each `sendall`, and the final `close`. -/
inductive Event where
  | connAttempt : Event
  | sent : List Char → Event
  | closed : Event
deriving DecidableEq, Repr

/-- Environment of one invocation: whether `connect` succeeds, the
bytes returned by the i-th `recv(1024)`, whether the i-th `sendall`
succeeds (raising otherwise), whether `close` succeeds, and the `str(e)`
texts interpolated into the two exception messages. -/
structure NetEnv where
  connectOk : Bool
  responses : Nat → List Char
  sendOk : Nat → Bool
  closeOk : Bool
  connectExc : List Char
  smtpExc : List Char

/-- Outcome of one invocation: the process exit code, the lines written
to stderr, and the trace of network events. -/
structure RunResult where
  exitCode : Nat
  errLines : List (List Char)
  trace : List Event
deriving DecidableEq, Repr

/-- Fixed command of line 36. -/
def EHLOcmd : List Char := "EHLO localhost\r\n".data

/-- Fixed command of line 42: the sender is the constant
`noreply@localhost`, independent of the input message. -/
def MAILcmd : List Char := "MAIL FROM:<noreply@localhost>\r\n".data

/-- Command of line 48, parameterised by the extracted recipient. -/
def RCPTcmd (to_addr : List Char) : List Char :=
  "RCPT TO:<".data ++ to_addr ++ ">\r\n".data

/-- Fixed command of line 54. -/
def DATAcmd : List Char := "DATA\r\n".data

/-- End-of-data marker of line 62: CRLF, a lone dot line, CRLF. -/
def endMarker : List Char := "\r\n.\r\n".data

/-- Fixed command of line 68. -/
def QUITcmd : List Char := "QUIT\r\n".data

/-- Check `response.startswith(b'250')`. -/
def starts250 (r : List Char) : Bool := pyStartsWith "250".data r

/-- Check `response.startswith(b'354')`. -/
def starts354 (r : List Char) : Bool := pyStartsWith "354".data r

/-- Stderr line of line 23. -/
def errNoTo : List Char := "ERROR: No To header found\n".data

/-- Stderr line of line 31. -/
def errConnectLine (e : List Char) : List Char :=
  "ERROR: Failed to connect to 127.0.0.1:10025: ".data ++ e ++ "\n".data

/-- Stderr line of line 39. -/
def errEhloLine (r : List Char) : List Char :=
  "ERROR: EHLO failed: ".data ++ r ++ "\n".data

/-- Stderr line of line 45. -/
def errMailLine (r : List Char) : List Char :=
  "ERROR: MAIL FROM failed: ".data ++ r ++ "\n".data

/-- Stderr line of line 51. -/
def errRcptLine (r : List Char) : List Char :=
  "ERROR: RCPT TO failed: ".data ++ r ++ "\n".data

/-- Stderr line of line 57. -/
def errDataLine (r : List Char) : List Char :=
  "ERROR: DATA failed: ".data ++ r ++ "\n".data

/-- Stderr line of line 65. -/
def errSendLine (r : List Char) : List Char :=
  "ERROR: Message send failed: ".data ++ r ++ "\n".data

/-- Stderr line of line 71, the `except` handler around the SMTP
exchange. -/
def errSmtpLine (e : List Char) : List Char :=
  "ERROR: SMTP error: ".data ++ e ++ "\n".data

/-- The `try` block of lines 34-72: each step sends one command (a
failing `sendall` raises into the `except` handler), reads one
response, checks its status prefix, and exits 1 on mismatch with the
corresponding stderr line; on full success the script sends `QUIT`,
closes the socket, and falls through to exit 0. -/
def runSmtp (email to_addr : List Char) (env : NetEnv) : RunResult :=
  let tr0 : List Event := [Event.connAttempt]
  if env.sendOk 0 then
    let tr1 := tr0 ++ [Event.sent EHLOcmd]
    if starts250 (env.responses 0) then
      if env.sendOk 1 then
        let tr2 := tr1 ++ [Event.sent MAILcmd]
        if starts250 (env.responses 1) then
          if env.sendOk 2 then
            let tr3 := tr2 ++ [Event.sent (RCPTcmd to_addr)]
            if starts250 (env.responses 2) then
              if env.sendOk 3 then
                let tr4 := tr3 ++ [Event.sent DATAcmd]
                if starts354 (env.responses 3) then
                  if env.sendOk 4 then
                    let tr5a := tr4 ++ [Event.sent email]
                    if env.sendOk 5 then
                      let tr5 := tr5a ++ [Event.sent endMarker]
                      if starts250 (env.responses 4) then
                        if env.sendOk 6 then
                          let tr6 := tr5 ++ [Event.sent QUITcmd]
                          if env.closeOk then
                            ⟨0, [], tr6 ++ [Event.closed]⟩
                          else ⟨1, [errSmtpLine env.smtpExc], tr6⟩
                        else ⟨1, [errSmtpLine env.smtpExc], tr5⟩
                      else ⟨1, [errSendLine (env.responses 4)], tr5⟩
                    else ⟨1, [errSmtpLine env.smtpExc], tr5a⟩
                  else ⟨1, [errSmtpLine env.smtpExc], tr4⟩
                else ⟨1, [errDataLine (env.responses 3)], tr4⟩
              else ⟨1, [errSmtpLine env.smtpExc], tr3⟩
            else ⟨1, [errRcptLine (env.responses 2)], tr3⟩
          else ⟨1, [errSmtpLine env.smtpExc], tr2⟩
        else ⟨1, [errMailLine (env.responses 1)], tr2⟩
      else ⟨1, [errSmtpLine env.smtpExc], tr1⟩
    else ⟨1, [errEhloLine (env.responses 0)], tr1⟩
  else ⟨1, [errSmtpLine env.smtpExc], tr0⟩

/-- The whole of `main` (lines 9-72): read the input, extract the
recipient, fail before any network activity when it is missing or
empty, otherwise connect (failing with the connect diagnostic when the
endpoint is unreachable) and perform the SMTP exchange. -/
def run (email : List Char) (env : NetEnv) : RunResult :=
  match extractTo email with
  | none => ⟨1, [errNoTo], []⟩
  | some to_addr =>
    if to_addr.isEmpty then ⟨1, [errNoTo], []⟩
    else if env.connectOk then runSmtp email to_addr env
    else ⟨1, [errConnectLine env.connectExc], [Event.connAttempt]⟩

/-! ## Socket configuration

The script configures the socket on lines 28-29 only: it creates a
stream socket and connects it; no `settimeout` (or
`setdefaulttimeout`) call exists anywhere in the source, so every
`recv` blocks without bound. -/

/-- Endpoint host constant of line 29. -/
def endpointHost : List Char := "127.0.0.1".data

/-- Endpoint port constant of line 29. -/
def endpointPort : Nat := 10025

/-- Socket-level operations the script could perform on its socket
before or during the exchange. -/
inductive SockOp where
  | create : SockOp
  | connect : List Char → Nat → SockOp
  | settimeout : Nat → SockOp
deriving DecidableEq, Repr

/-- The socket configuration actually performed by lines 28-29:
creation then connect, and nothing else — in particular no timeout is
ever installed. -/
def socketSetup : List SockOp :=
  [SockOp.create, SockOp.connect endpointHost endpointPort]

/-! ## Auxiliary constructions for the statements -/

/-- Concatenation of lines, each terminated by a newline; inputs of
this shape let the theorems quantify over the lines preceding the
matching header line. -/
def joinNl : List (List Char) → List Char
  | [] => []
  | l :: ls => l ++ '\n' :: joinNl ls

/-- The fixed sender constant baked into line 42. -/
def defaultSender : List Char := "noreply@localhost".data

/-- Modelled from the spec: §4.1's address extraction from a header
value ("if the value contains an address enclosed in angle brackets
(`<...>`), use exactly that substring; otherwise, use the trimmed full
value"). The script has no counterpart for From headers; this
definition exists only to compare the spec's envelope-sender policy
with what the script sends. -/
def specExtractAddr (v : List Char) : List Char :=
  match v.dropWhile (fun c => c ≠ '<') with
  | [] => pyStrip v
  | _ :: rest =>
    if rest.any (fun c => c = '>') then rest.takeWhile (fun c => c ≠ '>')
    else pyStrip v

/-- Modelled from the spec: §4.1's sender extraction — locate the
case-insensitive `From` header, extract its address, and substitute
the fixed default sender when the header is missing or its value
empty. -/
def specExtractFrom (email : List Char) : List Char :=
  match findHeaderLine "from:".data (splitLines email) with
  | none => defaultSender
  | some v =>
    let a := specExtractAddr v
    if a.isEmpty then defaultSender else a

/-- Responses of the all-positive mock endpoint: `354` to the fourth
command (`DATA`), `250 OK` to everything else. -/
def okResponses : Nat → List Char := fun i =>
  if i = 3 then "354 End data\r\n".data else "250 OK\r\n".data

/-- The all-positive mock environment: connect succeeds, every send
and the close succeed, and the endpoint answers `okResponses`. -/
def okEnv : NetEnv :=
  ⟨true, okResponses, fun _ => true, true, [], []⟩

/-- Address characters that survive both strips: no Python whitespace
and no angle bracket. -/
abbrev cleanAddr (a : List Char) : Prop :=
  ∀ c ∈ a, isPyWs c = false ∧ isAngle c = false

/-! ## Supporting lemmas -/

/-- Dropping while `p` holds leaves a list untouched when no element
satisfies `p`. -/
theorem dropWhile_eq_self_of_all {p : Char → Bool} {s : List Char}
    (h : ∀ c ∈ s, p c = false) : s.dropWhile p = s := by
  cases s with
  | nil => rfl
  | cons c cs => exact List.dropWhile_cons_of_neg (by simp [h c (by simp)])

/-- Stripping leaves a list untouched when no element satisfies the
stripping predicate. -/
theorem pyStripWith_eq_self {p : Char → Bool} {s : List Char}
    (h : ∀ c ∈ s, p c = false) : pyStripWith p s = s := by
  unfold pyStripWith
  rw [dropWhile_eq_self_of_all h,
    dropWhile_eq_self_of_all (fun c hc => h c (List.mem_reverse.mp hc)),
    List.reverse_reverse]

/-- A leading character satisfying the stripping predicate is
discarded before the rest is stripped. -/
theorem pyStripWith_cons_of_pos {p : Char → Bool} {c : Char} (s : List Char)
    (hc : p c = true) : pyStripWith p (c :: s) = pyStripWith p s := by
  unfold pyStripWith
  rw [List.dropWhile_cons_of_pos hc]

/-- Stripping keeps a list whose first and last characters both fail
the stripping predicate. -/
theorem pyStripWith_cons_append {p : Char → Bool} {c d : Char} (a : List Char)
    (hc : p c = false) (hd : p d = false) :
    pyStripWith p (c :: (a ++ [d])) = c :: (a ++ [d]) := by
  unfold pyStripWith
  rw [List.dropWhile_cons_of_neg (by simp [hc])]
  rw [show (c :: (a ++ [d])).reverse = d :: (a.reverse ++ [c]) by simp]
  rw [List.dropWhile_cons_of_neg (by simp [hd])]
  simp

/-- Splitting on newlines peels off a newline-free first line. -/
theorem splitLines_append {l : List Char} (rest : List Char) (h : '\n' ∉ l) :
    splitLines (l ++ '\n' :: rest) = l :: splitLines rest := by
  induction l with
  | nil => simp [splitLines]
  | cons c cs ih =>
    have hc : c ≠ '\n' := fun e => h (by simp [e])
    have hcs : '\n' ∉ cs := fun e => h (by simp [e])
    simp [splitLines, hc, ih hcs]

/-- Splitting on newlines recovers the lines of a `joinNl` block in
front of the remainder's lines. -/
theorem splitLines_joinNl {ls : List (List Char)} (s : List Char)
    (h : ∀ l ∈ ls, '\n' ∉ l) :
    splitLines (joinNl ls ++ s) = ls ++ splitLines s := by
  induction ls with
  | nil => simp [joinNl]
  | cons l ls ih =>
    rw [joinNl, List.append_assoc, List.cons_append,
      splitLines_append _ (h l (by simp)),
      ih (fun l' hl' => h l' (by simp [hl']))]
    rfl

/-- The header scan skips every line that does not match the key. -/
theorem findHeaderLine_append {key : List Char} {before : List (List Char)}
    (ls : List (List Char))
    (h : ∀ l ∈ before, pyStartsWith key (pyLower l) = false) :
    findHeaderLine key (before ++ ls) = findHeaderLine key ls := by
  induction before with
  | nil => rfl
  | cons b bs ih =>
    simp [findHeaderLine, h b (by simp), ih (fun l hl => h l (by simp [hl]))]

/-- A true `startswith` stays true when the subject is extended on the
right. -/
theorem pyStartsWith_append {p q : List Char} (r : List Char)
    (h : pyStartsWith p q = true) : pyStartsWith p (q ++ r) = true := by
  induction p generalizing q with
  | nil => rfl
  | cons a as ih =>
    cases q with
    | nil => simp [pyStartsWith] at h
    | cons c cs =>
      simp only [pyStartsWith, Bool.and_eq_true] at h
      simp only [List.cons_append, pyStartsWith, Bool.and_eq_true]
      exact ⟨h.1, ih h.2⟩

/-- Stripping a list that ends in a stripped character and otherwise
contains none returns the list without that last character. -/
theorem pyStripWith_append_singleton {p : Char → Bool} {d : Char} (a : List Char)
    (h : ∀ c ∈ a, p c = false) (hd : p d = true) :
    pyStripWith p (a ++ [d]) = a := by
  cases a with
  | nil =>
    unfold pyStripWith
    rw [List.nil_append, List.dropWhile_cons_of_pos hd]
    rfl
  | cons c cs =>
    unfold pyStripWith
    rw [List.cons_append, List.dropWhile_cons_of_neg (by simp [h c (by simp)])]
    rw [show (c :: (cs ++ [d])).reverse = d :: (cs.reverse ++ [c]) by simp]
    rw [List.dropWhile_cons_of_pos hd]
    have hall : ∀ x ∈ cs.reverse ++ [c], p x = false := by
      intro x hx
      refine h x ?_
      rcases List.mem_append.mp hx with h1 | h2
      · exact List.mem_cons_of_mem _ (List.mem_reverse.mp h1)
      · simp only [List.mem_singleton] at h2
        rw [h2]
        exact List.mem_cons_self _ _
    rw [dropWhile_eq_self_of_all hall]
    simp

/-- Lowering distributes over concatenation. -/
theorem pyLower_append (s t : List Char) :
    pyLower (s ++ t) = pyLower s ++ pyLower t := by
  unfold pyLower
  exact List.map_append pyToLower s t

/-- Splitting off everything after the first colon of a `To: <` line. -/
theorem afterColon_To_bracket (x : List Char) :
    afterColon ("To: <".data ++ x) = ' ' :: '<' :: x := rfl

/-- Splitting off everything after the first colon of a plain `To: `
line. -/
theorem afterColon_To_plain (x : List Char) :
    afterColon ("To: ".data ++ x) = ' ' :: x := rfl

/-- Splitting off everything after the first colon of a lower-case
`to: ` line. -/
theorem afterColon_to_plain (x : List Char) :
    afterColon ("to: ".data ++ x) = ' ' :: x := rfl

/-- The scan guard accepts a `To: <` line. -/
theorem guard_To_bracket (x : List Char) :
    pyStartsWith "to:".data (pyLower ("To: <".data ++ x)) = true := by
  have h : pyLower ("To: <".data ++ x) = "to: <".data ++ pyLower x := by
    rw [pyLower_append]
    rfl
  rw [h]
  exact pyStartsWith_append _ (by decide)

/-- The scan guard accepts a plain `To: ` line. -/
theorem guard_To_plain (x : List Char) :
    pyStartsWith "to:".data (pyLower ("To: ".data ++ x)) = true := by
  have h : pyLower ("To: ".data ++ x) = "to: ".data ++ pyLower x := by
    rw [pyLower_append]
    rfl
  rw [h]
  exact pyStartsWith_append _ (by decide)

/-- The scan guard accepts a lower-case `to: ` line. -/
theorem guard_to_plain (x : List Char) :
    pyStartsWith "to:".data (pyLower ("to: ".data ++ x)) = true := by
  have h : pyLower ("to: ".data ++ x) = "to: ".data ++ pyLower x := by
    rw [pyLower_append]
    rfl
  rw [h]
  exact pyStartsWith_append _ (by decide)

/-- Clean addresses contain no newline. -/
theorem cleanAddr_no_nl {a : List Char} (ha : cleanAddr a) : '\n' ∉ a := by
  intro hmem
  have := (ha _ hmem).1
  simp [isPyWs] at this

/-- Both strips applied to the value of a `To: <a>` header keep
exactly `a`. -/
theorem strip_bracket_value (a : List Char) (ha : cleanAddr a) :
    pyStripAngles (pyStrip (' ' :: '<' :: (a ++ ['>']))) = a := by
  unfold pyStrip pyStripAngles
  rw [pyStripWith_cons_of_pos _ (by decide),
    pyStripWith_cons_append _ (by decide) (by decide),
    pyStripWith_cons_of_pos _ (by decide),
    pyStripWith_append_singleton _ (fun c hc => (ha c hc).2) (by decide)]

/-- Both strips applied to the value of a plain `To: a` header keep
exactly `a`. -/
theorem strip_plain_value (a : List Char) (ha : cleanAddr a) :
    pyStripAngles (pyStrip (' ' :: a)) = a := by
  unfold pyStrip pyStripAngles
  rw [pyStripWith_cons_of_pos _ (by decide),
    pyStripWith_eq_self (fun c hc => (ha c hc).1),
    pyStripWith_eq_self (fun c hc => (ha c hc).2)]

/-- Extraction on an input whose first matching header line is
`To: <a>`: the result keeps only `a` because the value's single
leading `<` and trailing `>` are stripped. -/
theorem extractTo_bracket_line (before : List (List Char)) (a rest : List Char)
    (hb : ∀ l ∈ before, pyStartsWith "to:".data (pyLower l) = false)
    (hbNl : ∀ l ∈ before, '\n' ∉ l) (ha : cleanAddr a) :
    extractTo (joinNl before ++ (("To: <".data ++ (a ++ ['>'])) ++ '\n' :: rest)) =
      some a := by
  have hna : '\n' ∉ a := cleanAddr_no_nl ha
  have hline : '\n' ∉ "To: <".data ++ (a ++ ['>']) := by
    intro hmem
    rcases List.mem_append.mp hmem with h1 | h2
    · revert h1; decide
    · rcases List.mem_append.mp h2 with h3 | h4
      · exact hna h3
      · revert h4; decide
  unfold extractTo
  rw [splitLines_joinNl _ hbNl, splitLines_append _ hline,
    findHeaderLine_append _ hb]
  rw [show findHeaderLine "to:".data
        (("To: <".data ++ (a ++ ['>'])) :: splitLines rest)
      = some (afterColon ("To: <".data ++ (a ++ ['>']))) from by
    unfold findHeaderLine
    rw [guard_To_bracket]
    simp]
  rw [afterColon_To_bracket, Option.map_some']
  exact congrArg some (strip_bracket_value a ha)

/-- Extraction on an input whose first matching header line is the
plain `To: a`: the result is the trimmed value. -/
theorem extractTo_plain_line (before : List (List Char)) (a rest : List Char)
    (hb : ∀ l ∈ before, pyStartsWith "to:".data (pyLower l) = false)
    (hbNl : ∀ l ∈ before, '\n' ∉ l) (ha : cleanAddr a) :
    extractTo (joinNl before ++ (("To: ".data ++ a) ++ '\n' :: rest)) = some a := by
  have hna : '\n' ∉ a := cleanAddr_no_nl ha
  have hline : '\n' ∉ "To: ".data ++ a := by
    intro hmem
    rcases List.mem_append.mp hmem with h1 | h2
    · revert h1; decide
    · exact hna h2
  unfold extractTo
  rw [splitLines_joinNl _ hbNl, splitLines_append _ hline,
    findHeaderLine_append _ hb]
  rw [show findHeaderLine "to:".data
        (("To: ".data ++ a) :: splitLines rest)
      = some (afterColon ("To: ".data ++ a)) from by
    unfold findHeaderLine
    rw [guard_To_plain]
    simp]
  rw [afterColon_To_plain, Option.map_some']
  exact congrArg some (strip_plain_value a ha)

/-- Extraction on an input whose first matching line is a lower-case
`to: a` — the guard is case-insensitive and the scan does not stop at
the end of the header block. -/
theorem extractTo_lc_line (before : List (List Char)) (a rest : List Char)
    (hb : ∀ l ∈ before, pyStartsWith "to:".data (pyLower l) = false)
    (hbNl : ∀ l ∈ before, '\n' ∉ l) (ha : cleanAddr a) :
    extractTo (joinNl before ++ (("to: ".data ++ a) ++ '\n' :: rest)) = some a := by
  have hna : '\n' ∉ a := cleanAddr_no_nl ha
  have hline : '\n' ∉ "to: ".data ++ a := by
    intro hmem
    rcases List.mem_append.mp hmem with h1 | h2
    · revert h1; decide
    · exact hna h2
  unfold extractTo
  rw [splitLines_joinNl _ hbNl, splitLines_append _ hline,
    findHeaderLine_append _ hb]
  rw [show findHeaderLine "to:".data
        (("to: ".data ++ a) :: splitLines rest)
      = some (afterColon ("to: ".data ++ a)) from by
    unfold findHeaderLine
    rw [guard_to_plain]
    simp]
  rw [afterColon_to_plain, Option.map_some']
  exact congrArg some (strip_plain_value a ha)

/-- A true `startswith` survives extending the subject by two appended
pieces, the shape of every rendered diagnostic line. -/
theorem pyStartsWith_append_left {p q : List Char} (r s : List Char)
    (h : pyStartsWith p q = true) : pyStartsWith p (q ++ r ++ s) = true :=
  pyStartsWith_append s (pyStartsWith_append r h)

/-- The data-start command differs from every recipient command. -/
theorem DATAcmd_ne_RCPTcmd (t : List Char) : DATAcmd ≠ RCPTcmd t := by
  intro h
  have h0 : ('D' : Char) = 'R' := congrArg (fun l => l.headD ' ') h
  exact absurd h0 (by decide)

/-- Full success path: a nonempty extracted recipient, a reachable
endpoint, positive responses throughout, and no send or close failure
give exit status 0 and exactly the linear command sequence of the
script. -/
theorem run_success (email to_addr : List Char) (env : NetEnv)
    (hto : extractTo email = some to_addr) (hne : to_addr.isEmpty = false)
    (hconn : env.connectOk = true)
    (hsend : ∀ i, env.sendOk i = true) (hclose : env.closeOk = true)
    (h0 : starts250 (env.responses 0) = true)
    (h1 : starts250 (env.responses 1) = true)
    (h2 : starts250 (env.responses 2) = true)
    (h3 : starts354 (env.responses 3) = true)
    (h4 : starts250 (env.responses 4) = true) :
    run email env = ⟨0, [],
      [Event.connAttempt, Event.sent EHLOcmd, Event.sent MAILcmd,
       Event.sent (RCPTcmd to_addr), Event.sent DATAcmd, Event.sent email,
       Event.sent endMarker, Event.sent QUITcmd, Event.closed]⟩ := by
  simp [run, runSmtp, hto, hne, hconn, hclose, hsend, h0, h1, h2, h3, h4]

/-! ## Claims -/

/-- C1, counterexample: the two-branch extraction policy fails on the
code. For the header `To: Name <addr>` the script does not produce the
bracketed substring `addr`: `strip('<>')` removes only leading and
trailing angle-bracket characters, so the result is `Name <addr`. -/
theorem c1_counterexample :
    extractTo "To: Name <addr>\n\nbody".data = some "Name <addr".data ∧
    extractTo "To: Name <addr>\n\nbody".data ≠ some "addr".data :=
  ⟨rfl, by decide⟩

/-- C1, amended: the extracted recipient is the text after the first
colon, trimmed of whitespace and then stripped of leading and trailing
angle-bracket characters; hence for a header whose value is exactly a
bracketed address, `To: <a>`, the recipient is exactly `a`, and for a
plain `To: a` it is the trimmed value `a` — while a value such as
`Name <a>` keeps its prefix and inner bracket. -/
theorem c1_extraction_policy (before : List (List Char)) (a rest : List Char)
    (hb : ∀ l ∈ before, pyStartsWith "to:".data (pyLower l) = false)
    (hbNl : ∀ l ∈ before, '\n' ∉ l) (ha : cleanAddr a) :
    extractTo (joinNl before ++ (("To: <".data ++ (a ++ ['>'])) ++ '\n' :: rest))
      = some a ∧
    extractTo (joinNl before ++ (("To: ".data ++ a) ++ '\n' :: rest))
      = some a :=
  ⟨extractTo_bracket_line before a rest hb hbNl ha,
   extractTo_plain_line before a rest hb hbNl ha⟩

/-- C1, witness: the amended policy at a concrete input with one
preceding non-matching header line. -/
theorem c1_witness :
    extractTo (joinNl ["Subject: hi".data] ++
        (("To: <".data ++ ("addr@example.com".data ++ ['>'])) ++ '\n' :: "body".data))
      = some "addr@example.com".data ∧
    extractTo (joinNl ["Subject: hi".data] ++
        (("To: ".data ++ "addr@example.com".data) ++ '\n' :: "body".data))
      = some "addr@example.com".data :=
  c1_extraction_policy ["Subject: hi".data] "addr@example.com".data "body".data
    (by decide) (by decide) (by decide)

/-- C2, counterexample: with the all-positive endpoint the run
succeeds, but the sender command it sends is the fixed
`MAIL FROM:<noreply@localhost>`, which does not reference the
spec-extracted sender `alice@example.com` of the input's From
header. -/
theorem c2_counterexample :
    (run "From: alice@example.com\nTo: bob@example.com\n\nhello\n".data
        okEnv).exitCode = 0 ∧
    (run "From: alice@example.com\nTo: bob@example.com\n\nhello\n".data
        okEnv).trace.get? 2 = some (Event.sent MAILcmd) ∧
    specExtractFrom "From: alice@example.com\nTo: bob@example.com\n\nhello\n".data
      = "alice@example.com".data ∧
    MAILcmd ≠ "MAIL FROM:<".data ++ ("alice@example.com".data ++ ">\r\n".data) :=
  ⟨rfl, rfl, rfl, by decide⟩

/-- C2, amended: with a mock endpoint answering 250 to greeting,
sender and recipient, 354 to data-start and 250 after the body, the
client exits 0 having sent, in this exact order: the greeting, the
sender command with the fixed default sender, the recipient command
for the extracted recipient, the data-start command, the message
bytes, the end-of-data marker, and the termination command. -/
theorem c2_success_sequence (email to_addr : List Char) (env : NetEnv)
    (hto : extractTo email = some to_addr) (hne : to_addr.isEmpty = false)
    (hconn : env.connectOk = true)
    (hsend : ∀ i, env.sendOk i = true) (hclose : env.closeOk = true)
    (h0 : starts250 (env.responses 0) = true)
    (h1 : starts250 (env.responses 1) = true)
    (h2 : starts250 (env.responses 2) = true)
    (h3 : starts354 (env.responses 3) = true)
    (h4 : starts250 (env.responses 4) = true) :
    run email env = ⟨0, [],
      [Event.connAttempt, Event.sent EHLOcmd, Event.sent MAILcmd,
       Event.sent (RCPTcmd to_addr), Event.sent DATAcmd, Event.sent email,
       Event.sent endMarker, Event.sent QUITcmd, Event.closed]⟩ :=
  run_success email to_addr env hto hne hconn hsend hclose h0 h1 h2 h3 h4

/-- C2, witness: the amended sequence at a concrete input against the
all-positive mock endpoint. -/
theorem c2_witness :
    run "To: bob@example.com\r\n\r\nHello\r\n".data okEnv = ⟨0, [],
      [Event.connAttempt, Event.sent EHLOcmd, Event.sent MAILcmd,
       Event.sent (RCPTcmd "bob@example.com".data), Event.sent DATAcmd,
       Event.sent "To: bob@example.com\r\n\r\nHello\r\n".data,
       Event.sent endMarker, Event.sent QUITcmd, Event.closed]⟩ :=
  c2_success_sequence "To: bob@example.com\r\n\r\nHello\r\n".data
    "bob@example.com".data okEnv rfl rfl rfl (fun _ => rfl) rfl rfl rfl rfl rfl rfl

/-- C3, counterexample: the input carries `From: carol@example.org`,
whose spec-extracted sender is `carol@example.org`, yet the sender
command actually sent is the fixed `MAIL FROM:<noreply@localhost>`,
which does not reference it. -/
theorem c3_counterexample :
    specExtractFrom "From: carol@example.org\nTo: dave@example.org\n\nhi\n".data
      = "carol@example.org".data ∧
    (run "From: carol@example.org\nTo: dave@example.org\n\nhi\n".data
        okEnv).trace.get? 2 = some (Event.sent MAILcmd) ∧
    MAILcmd ≠ "MAIL FROM:<".data ++ ("carol@example.org".data ++ ">\r\n".data) :=
  ⟨rfl, rfl, by decide⟩

/-- C3, amended: the sender command always carries the fixed default
sender `noreply@localhost`, whatever the input's headers; in
particular an input without a From header still proceeds through the
whole transaction using that default. -/
theorem c3_default_sender (email to_addr : List Char) (env : NetEnv)
    (hto : extractTo email = some to_addr) (hne : to_addr.isEmpty = false)
    (hconn : env.connectOk = true)
    (hsend : ∀ i, env.sendOk i = true) (hclose : env.closeOk = true)
    (h0 : starts250 (env.responses 0) = true)
    (h1 : starts250 (env.responses 1) = true)
    (h2 : starts250 (env.responses 2) = true)
    (h3 : starts354 (env.responses 3) = true)
    (h4 : starts250 (env.responses 4) = true) :
    (run email env).exitCode = 0 ∧
    (run email env).trace.get? 2 = some (Event.sent MAILcmd) ∧
    MAILcmd = "MAIL FROM:<".data ++ (defaultSender ++ ">\r\n".data) := by
  rw [run_success email to_addr env hto hne hconn hsend hclose h0 h1 h2 h3 h4]
  exact ⟨rfl, rfl, rfl⟩

/-- C3, witness: an input with no From header proceeds to completion
with the fixed default sender. -/
theorem c3_witness :
    (run "To: eve@example.net\n\nping\n".data okEnv).exitCode = 0 ∧
    (run "To: eve@example.net\n\nping\n".data okEnv).trace.get? 2
      = some (Event.sent MAILcmd) ∧
    MAILcmd = "MAIL FROM:<".data ++ (defaultSender ++ ">\r\n".data) :=
  c3_default_sender "To: eve@example.net\n\nping\n".data "eve@example.net".data
    okEnv rfl rfl rfl (fun _ => rfl) rfl rfl rfl rfl rfl rfl

/-- C4: when no line matches the recipient scan, or the extracted
value is empty, the run fails with the missing-recipient diagnostic
(exit status 1, a single ERROR line) and the trace is empty: no
connection is attempted and no SMTP command is sent. -/
theorem c4_missing_recipient (email : List Char) (env : NetEnv)
    (h : extractTo email = none ∨ extractTo email = some []) :
    run email env = ⟨1, [errNoTo], []⟩ ∧
    pyStartsWith "ERROR:".data errNoTo = true := by
  constructor
  · rcases h with h | h <;> simp [run, h]
  · decide

/-- C4, witness: an input without any To line fails before any network
activity. -/
theorem c4_witness :
    run "Subject: none\n\nhello\n".data okEnv = ⟨1, [errNoTo], []⟩ ∧
    pyStartsWith "ERROR:".data errNoTo = true :=
  c4_missing_recipient "Subject: none\n\nhello\n".data okEnv (Or.inl rfl)

/-- C5: a non-250 answer to the recipient command aborts the exchange
right there: exit status 1, a single ERROR-prefixed stderr line, and a
trace that ends at the recipient command — in particular the
data-start command is never sent. -/
theorem c5_rcpt_rejected (email to_addr : List Char) (env : NetEnv)
    (hto : extractTo email = some to_addr) (hne : to_addr.isEmpty = false)
    (hconn : env.connectOk = true)
    (hs0 : env.sendOk 0 = true) (hs1 : env.sendOk 1 = true)
    (hs2 : env.sendOk 2 = true)
    (h0 : starts250 (env.responses 0) = true)
    (h1 : starts250 (env.responses 1) = true)
    (h2 : starts250 (env.responses 2) = false) :
    run email env = ⟨1, [errRcptLine (env.responses 2)],
      [Event.connAttempt, Event.sent EHLOcmd, Event.sent MAILcmd,
       Event.sent (RCPTcmd to_addr)]⟩ ∧
    Event.sent DATAcmd ∉ (run email env).trace ∧
    pyStartsWith "ERROR: ".data (errRcptLine (env.responses 2)) = true := by
  have hrun : run email env = ⟨1, [errRcptLine (env.responses 2)],
      [Event.connAttempt, Event.sent EHLOcmd, Event.sent MAILcmd,
       Event.sent (RCPTcmd to_addr)]⟩ := by
    simp [run, runSmtp, hto, hne, hconn, hs0, hs1, hs2, h0, h1, h2]
  refine ⟨hrun, ?_, ?_⟩
  · rw [hrun]
    intro hmem
    rcases List.mem_cons.mp hmem with h' | hmem
    · exact Event.noConfusion h'
    rcases List.mem_cons.mp hmem with h' | hmem
    · injection h' with h''
      exact absurd h'' (by decide)
    rcases List.mem_cons.mp hmem with h' | hmem
    · injection h' with h''
      exact absurd h'' (by decide)
    rcases List.mem_cons.mp hmem with h' | hmem
    · injection h' with h''
      exact DATAcmd_ne_RCPTcmd to_addr h''
    · exact absurd hmem (List.not_mem_nil _)
  · unfold errRcptLine
    exact pyStartsWith_append_left _ _ (by decide)

/-- C5, witness: an endpoint answering `550` to the recipient command
at a concrete input. -/
theorem c5_witness :
    run "To: bob@example.com\n\nHi\n".data
      ⟨true, fun i => if i = 2 then "550 no such user\r\n".data
        else "250 OK\r\n".data, fun _ => true, true, [], []⟩ =
      ⟨1, [errRcptLine "550 no such user\r\n".data],
       [Event.connAttempt, Event.sent EHLOcmd, Event.sent MAILcmd,
        Event.sent (RCPTcmd "bob@example.com".data)]⟩ ∧
    Event.sent DATAcmd ∉
      (run "To: bob@example.com\n\nHi\n".data
        ⟨true, fun i => if i = 2 then "550 no such user\r\n".data
          else "250 OK\r\n".data, fun _ => true, true, [], []⟩).trace ∧
    pyStartsWith "ERROR: ".data (errRcptLine "550 no such user\r\n".data) = true := by
  have h := c5_rcpt_rejected "To: bob@example.com\n\nHi\n".data
    "bob@example.com".data
    ⟨true, fun i => if i = 2 then "550 no such user\r\n".data
      else "250 OK\r\n".data, fun _ => true, true, [], []⟩
    rfl rfl rfl rfl rfl rfl rfl rfl rfl
  exact h

/-- C6: when the connection to the fixed endpoint cannot be
established, the run exits with status 1 and the connect-category
diagnostic naming 127.0.0.1:10025, and the trace holds only the
connect attempt: no SMTP command is ever sent. -/
theorem c6_connect_refused (email to_addr : List Char) (env : NetEnv)
    (hto : extractTo email = some to_addr) (hne : to_addr.isEmpty = false)
    (hconn : env.connectOk = false) :
    run email env = ⟨1, [errConnectLine env.connectExc], [Event.connAttempt]⟩ ∧
    pyStartsWith "ERROR: Failed to connect to 127.0.0.1:10025".data
      (errConnectLine env.connectExc) = true ∧
    ∀ b, Event.sent b ∉ (run email env).trace := by
  have hrun : run email env =
      ⟨1, [errConnectLine env.connectExc], [Event.connAttempt]⟩ := by
    simp [run, hto, hne, hconn]
  refine ⟨hrun, ?_, ?_⟩
  · unfold errConnectLine
    exact pyStartsWith_append_left _ _ (by decide)
  · intro b hmem
    rw [hrun] at hmem
    rcases List.mem_cons.mp hmem with h' | hmem
    · exact Event.noConfusion h'
    · exact absurd hmem (List.not_mem_nil _)

/-- C6, witness: a refused connection at a concrete input. -/
theorem c6_witness :
    run "To: bob@example.com\n\nHi there\n".data
      ⟨false, okResponses, fun _ => true, true,
       "Connection refused".data, []⟩ =
      ⟨1, [errConnectLine "Connection refused".data], [Event.connAttempt]⟩ ∧
    pyStartsWith "ERROR: Failed to connect to 127.0.0.1:10025".data
      (errConnectLine "Connection refused".data) = true ∧
    ∀ b, Event.sent b ∉
      (run "To: bob@example.com\n\nHi there\n".data
        ⟨false, okResponses, fun _ => true, true,
         "Connection refused".data, []⟩).trace :=
  c6_connect_refused "To: bob@example.com\n\nHi there\n".data
    "bob@example.com".data
    ⟨false, okResponses, fun _ => true, true, "Connection refused".data, []⟩
    rfl rfl rfl

/-- C7, counterexample: the claim that every blocking read is bounded
by a fixed timeout fails on the code — the socket setup contains no
timeout installation at all, so `recv` blocks without bound. -/
theorem c7_counterexample : ¬ ∃ t, SockOp.settimeout t ∈ socketSetup := by
  rintro ⟨t, ht⟩
  rcases List.mem_cons.mp ht with h' | ht
  · exact SockOp.noConfusion h'
  rcases List.mem_cons.mp ht with h' | ht
  · exact SockOp.noConfusion h'
  · exact absurd ht (List.not_mem_nil _)

/-- C7, amended: the socket configuration consists solely of creating
the stream socket and connecting it to the fixed endpoint
127.0.0.1:10025; no timeout is configured, so a response that never
arrives blocks the read indefinitely instead of failing. -/
theorem c7_no_timeout (op : SockOp) (hop : op ∈ socketSetup) :
    op = SockOp.create ∨ op = SockOp.connect endpointHost endpointPort := by
  rcases List.mem_cons.mp hop with h' | hop
  · exact Or.inl h'
  rcases List.mem_cons.mp hop with h' | hop
  · exact Or.inr h'
  · exact absurd hop (List.not_mem_nil _)

/-- C7, witness: the amended statement at the connect operation. -/
theorem c7_witness :
    SockOp.connect endpointHost endpointPort ∈ socketSetup ∧
    (SockOp.connect endpointHost endpointPort = SockOp.create ∨
     SockOp.connect endpointHost endpointPort
       = SockOp.connect endpointHost endpointPort) :=
  ⟨by decide, c7_no_timeout _ (by decide)⟩

/-- C8: in the data phase the script transmits the input bytes
verbatim as the sixth network event and the end-of-data marker (CRLF,
a lone dot, CRLF) immediately after — with no dot-stuffing, the
payload equals the input even when it contains a line that is a single
dot. -/
theorem c8_verbatim_data (email to_addr : List Char) (env : NetEnv)
    (hto : extractTo email = some to_addr) (hne : to_addr.isEmpty = false)
    (hconn : env.connectOk = true)
    (hsend : ∀ i, env.sendOk i = true) (hclose : env.closeOk = true)
    (h0 : starts250 (env.responses 0) = true)
    (h1 : starts250 (env.responses 1) = true)
    (h2 : starts250 (env.responses 2) = true)
    (h3 : starts354 (env.responses 3) = true)
    (h4 : starts250 (env.responses 4) = true) :
    (run email env).trace.get? 5 = some (Event.sent email) ∧
    (run email env).trace.get? 6 = some (Event.sent endMarker) ∧
    endMarker = ['\r', '\n', '.', '\r', '\n'] := by
  rw [run_success email to_addr env hto hne hconn hsend hclose h0 h1 h2 h3 h4]
  exact ⟨rfl, rfl, by decide⟩

/-- C8, witness: a message whose body contains a line consisting
solely of a dot is still sent verbatim, followed by the marker. -/
theorem c8_witness :
    (run "To: bob@x\r\n\r\nA\r\n.\r\nB\r\n".data okEnv).trace.get? 5
      = some (Event.sent "To: bob@x\r\n\r\nA\r\n.\r\nB\r\n".data) ∧
    (run "To: bob@x\r\n\r\nA\r\n.\r\nB\r\n".data okEnv).trace.get? 6
      = some (Event.sent endMarker) ∧
    endMarker = ['\r', '\n', '.', '\r', '\n'] :=
  c8_verbatim_data "To: bob@x\r\n\r\nA\r\n.\r\nB\r\n".data "bob@x".data okEnv
    rfl rfl rfl (fun _ => rfl) rfl rfl rfl rfl rfl rfl

/-- C9: the recipient scan runs over every line of the input, body
included: when no earlier line (the `before` block, which may contain
the empty header/body separator line) matches, a body line `to: a`
supplies the recipient — the run does not fail with the
missing-recipient condition and relays to exactly that address. -/
theorem c9_body_line_recipient (before : List (List Char)) (a rest : List Char)
    (env : NetEnv)
    (hb : ∀ l ∈ before, pyStartsWith "to:".data (pyLower l) = false)
    (hbNl : ∀ l ∈ before, '\n' ∉ l) (ha : cleanAddr a)
    (hne : a.isEmpty = false)
    (hconn : env.connectOk = true)
    (hsend : ∀ i, env.sendOk i = true) (hclose : env.closeOk = true)
    (h0 : starts250 (env.responses 0) = true)
    (h1 : starts250 (env.responses 1) = true)
    (h2 : starts250 (env.responses 2) = true)
    (h3 : starts354 (env.responses 3) = true)
    (h4 : starts250 (env.responses 4) = true) :
    extractTo (joinNl before ++ (("to: ".data ++ a) ++ '\n' :: rest)) = some a ∧
    (run (joinNl before ++ (("to: ".data ++ a) ++ '\n' :: rest)) env).exitCode
      = 0 ∧
    (run (joinNl before ++ (("to: ".data ++ a) ++ '\n' :: rest)) env).trace.get? 3
      = some (Event.sent (RCPTcmd a)) := by
  have hto := extractTo_lc_line before a rest hb hbNl ha
  have hrun := run_success _ a env hto hne hconn hsend hclose h0 h1 h2 h3 h4
  exact ⟨hto, by rw [hrun], by rw [hrun]; rfl⟩

/-- C9, witness: a `to:` line below the empty header/body separator
supplies the recipient and the message is relayed to it. -/
theorem c9_witness :
    extractTo (joinNl ["Subject: x".data, []] ++
        (("to: ".data ++ "bob@example.net".data) ++ '\n' :: "tail".data))
      = some "bob@example.net".data ∧
    (run (joinNl ["Subject: x".data, []] ++
        (("to: ".data ++ "bob@example.net".data) ++ '\n' :: "tail".data))
      okEnv).exitCode = 0 ∧
    (run (joinNl ["Subject: x".data, []] ++
        (("to: ".data ++ "bob@example.net".data) ++ '\n' :: "tail".data))
      okEnv).trace.get? 3 = some (Event.sent (RCPTcmd "bob@example.net".data)) :=
  c9_body_line_recipient ["Subject: x".data, []] "bob@example.net".data
    "tail".data okEnv (by decide) (by decide) (by decide) rfl rfl
    (fun _ => rfl) rfl rfl rfl rfl rfl rfl

/-- C10: the exit status is 0 only if sending QUIT and closing the
socket also succeed: after the endpoint has acknowledged the message
body with 250, a raising QUIT send or close lands in the exception
handler — one ERROR-prefixed line and exit status 1 — even though the
message bytes and the marker were fully transmitted. -/
theorem c10_late_failure (email to_addr : List Char) (env : NetEnv)
    (hto : extractTo email = some to_addr) (hne : to_addr.isEmpty = false)
    (hconn : env.connectOk = true)
    (hs0 : env.sendOk 0 = true) (hs1 : env.sendOk 1 = true)
    (hs2 : env.sendOk 2 = true) (hs3 : env.sendOk 3 = true)
    (hs4 : env.sendOk 4 = true) (hs5 : env.sendOk 5 = true)
    (h0 : starts250 (env.responses 0) = true)
    (h1 : starts250 (env.responses 1) = true)
    (h2 : starts250 (env.responses 2) = true)
    (h3 : starts354 (env.responses 3) = true)
    (h4 : starts250 (env.responses 4) = true)
    (hfail : env.sendOk 6 = false ∨ env.closeOk = false) :
    (run email env).exitCode = 1 ∧
    (run email env).errLines = [errSmtpLine env.smtpExc] ∧
    pyStartsWith "ERROR: ".data (errSmtpLine env.smtpExc) = true ∧
    Event.sent email ∈ (run email env).trace ∧
    Event.sent endMarker ∈ (run email env).trace := by
  have hpre : pyStartsWith "ERROR: ".data (errSmtpLine env.smtpExc) = true := by
    unfold errSmtpLine
    exact pyStartsWith_append_left _ _ (by decide)
  rcases hfail with h6 | hc
  · have hrun : run email env = ⟨1, [errSmtpLine env.smtpExc],
        [Event.connAttempt, Event.sent EHLOcmd, Event.sent MAILcmd,
         Event.sent (RCPTcmd to_addr), Event.sent DATAcmd, Event.sent email,
         Event.sent endMarker]⟩ := by
      simp [run, runSmtp, hto, hne, hconn, hs0, hs1, hs2, hs3, hs4, hs5,
        h0, h1, h2, h3, h4, h6]
    rw [hrun]
    exact ⟨rfl, rfl, hpre, by simp, by simp⟩
  · cases h6 : env.sendOk 6 with
    | false =>
      have hrun : run email env = ⟨1, [errSmtpLine env.smtpExc],
          [Event.connAttempt, Event.sent EHLOcmd, Event.sent MAILcmd,
           Event.sent (RCPTcmd to_addr), Event.sent DATAcmd, Event.sent email,
           Event.sent endMarker]⟩ := by
        simp [run, runSmtp, hto, hne, hconn, hs0, hs1, hs2, hs3, hs4, hs5,
          h0, h1, h2, h3, h4, h6]
      rw [hrun]
      exact ⟨rfl, rfl, hpre, by simp, by simp⟩
    | true =>
      have hrun : run email env = ⟨1, [errSmtpLine env.smtpExc],
          [Event.connAttempt, Event.sent EHLOcmd, Event.sent MAILcmd,
           Event.sent (RCPTcmd to_addr), Event.sent DATAcmd, Event.sent email,
           Event.sent endMarker, Event.sent QUITcmd]⟩ := by
        simp [run, runSmtp, hto, hne, hconn, hs0, hs1, hs2, hs3, hs4, hs5,
          h0, h1, h2, h3, h4, h6, hc]
      rw [hrun]
      exact ⟨rfl, rfl, hpre, by simp, by simp⟩

/-- C10, witness: the QUIT send raises after the body was accepted;
the run still reports failure. -/
theorem c10_witness :
    (run "To: bob@example.com\n\nBye\n".data
      ⟨true, okResponses, fun i => !(i == 6), true, [],
       "Broken pipe".data⟩).exitCode = 1 ∧
    (run "To: bob@example.com\n\nBye\n".data
      ⟨true, okResponses, fun i => !(i == 6), true, [],
       "Broken pipe".data⟩).errLines
      = [errSmtpLine "Broken pipe".data] ∧
    pyStartsWith "ERROR: ".data (errSmtpLine "Broken pipe".data) = true ∧
    Event.sent "To: bob@example.com\n\nBye\n".data ∈
      (run "To: bob@example.com\n\nBye\n".data
        ⟨true, okResponses, fun i => !(i == 6), true, [],
         "Broken pipe".data⟩).trace ∧
    Event.sent endMarker ∈
      (run "To: bob@example.com\n\nBye\n".data
        ⟨true, okResponses, fun i => !(i == 6), true, [],
         "Broken pipe".data⟩).trace :=
  c10_late_failure "To: bob@example.com\n\nBye\n".data "bob@example.com".data
    ⟨true, okResponses, fun i => !(i == 6), true, [], "Broken pipe".data⟩
    rfl rfl rfl rfl rfl rfl rfl rfl rfl rfl rfl rfl rfl rfl (Or.inl rfl)
